import Mathlib

/-!
Verification of the authentication module in `src/auth.js`.

The module exports three functions:

* `validateCredentials(username, password)` returns
  `username.length > 0 && password.length >= 6`;
* `login(username, password)` calls `validateCredentials`, prints a
  success message (`'User ' + username + ' logged in successfully'`) and
  returns `true` on success, or prints `'Login failed'` and returns
  `false` otherwise;
* `logout()` unconditionally prints `'User logged out'`.

The module keeps no state.  We embed the functions as pure Lean
functions; the console output of a call is modelled as the list of
messages it prints.  Since JavaScript callers may also pass `undefined`
(a missing argument), we additionally embed a JS-faithful version over
`Option String` in which reading `.length` of `undefined` raises a
`TypeError`, modelled with `Except`.
-/

/-- Embedding of `validateCredentials` from `src/auth.js` (line 13-16):
`return username.length > 0 && password.length >= 6;`. -/
def validateCredentials (username password : String) : Bool :=
  username.length > 0 && password.length ≥ 6

/-- Embedding of `login` from `src/auth.js` (line 3-11).  The first
component is the returned boolean, the second is the list of messages
printed to the console during the call. -/
def login (username password : String) : Bool × List String :=
  if validateCredentials username password then
    (true, ["User " ++ username ++ " logged in successfully"])
  else
    (false, ["Login failed"])

/-- Embedding of `logout` from `src/auth.js` (line 18-20): it returns
nothing (`Unit`) and prints exactly one message. -/
def logout : Unit × List String :=
  ((), ["User logged out"])

/-! ### JS-faithful embedding over possibly-missing arguments

In JavaScript a missing argument is `undefined`, and evaluating
`undefined.length` throws a `TypeError`.  `&&` short-circuits, so
`password.length` is only read when `username.length > 0` held. -/

/-- Reading `.length` of a possibly-missing string: `undefined.length`
throws a `TypeError`, otherwise the length is returned. -/
def jsLength : Option String → Except String Nat
  | none => Except.error "TypeError"
  | some s => Except.ok s.length

/-- JavaScript string coercion of a possibly-missing string, as used by
the `+` concatenation in the success message: `'User ' + undefined`
yields `"User undefined"`. -/
def jsStr : Option String → String
  | none => "undefined"
  | some s => s

/-- JS-faithful embedding of `validateCredentials`: evaluates
`username.length > 0 && password.length >= 6` with short-circuiting,
propagating the `TypeError` raised by `.length` on a missing value. -/
def validateCredentialsJS (username password : Option String) :
    Except String Bool := do
  let ul ← jsLength username
  if ul > 0 then
    let pl ← jsLength password
    pure (pl ≥ 6)
  else
    pure false

/-- JS-faithful embedding of `login`: the guard is evaluated first, so a
`TypeError` raised inside `validateCredentials` propagates before any
message is printed. -/
def loginJS (username password : Option String) :
    Except String (Bool × List String) := do
  let b ← validateCredentialsJS username password
  if b then
    pure (true, ["User " ++ jsStr username ++ " logged in successfully"])
  else
    pure (false, ["Login failed"])

/-! ### Call traces

The module keeps no mutable state (`src/auth.js` declares no variables
outside the three functions), so a call history is just a list of calls
and executing it concatenates the per-call console output.  `callResult`
is the boolean returned by a call (`none` for `logout`, which returns
nothing) and `callOutput` is the console output of that one call. -/

/-- One call to the module: `login`, `logout`, or a direct call to
`validateCredentials`. -/
inductive Call : Type
  | login (username password : String) : Call
  | logout : Call
  | validate (username password : String) : Call

/-- The boolean result of a single call (`logout` returns nothing). -/
def callResult : Call → Option Bool
  | Call.login u p => some (login u p).1
  | Call.logout => none
  | Call.validate u p => some (validateCredentials u p)

/-- The console output of a single call (`validateCredentials` prints
nothing). -/
def callOutput : Call → List String
  | Call.login u p => (login u p).2
  | Call.logout => logout.2
  | Call.validate _ _ => []

/-- Execute a call history in order: the list of results of each call,
and the full console output stream. -/
def runTrace : List Call → List (Option Bool) × List String
  | [] => ([], [])
  | c :: cs =>
    let rest := runTrace cs
    (callResult c :: rest.1, callOutput c ++ rest.2)

/-! ### Helper lemmas -/

/-- A string is nonempty exactly when its length is positive. -/
theorem string_length_pos_iff (s : String) : 0 < s.length ↔ s ≠ "" := by
  constructor
  · intro h hs
    subst hs
    simp [String.length] at h
  · intro h
    rcases s with ⟨l⟩
    cases l with
    | nil => exact absurd rfl h
    | cons a l => simp [String.length]

/-- Executing a history distributes over list concatenation. -/
theorem runTrace_append (t₁ t₂ : List Call) :
    runTrace (t₁ ++ t₂) =
      ((runTrace t₁).1 ++ (runTrace t₂).1,
       (runTrace t₁).2 ++ (runTrace t₂).2) := by
  induction t₁ with
  | nil => simp [runTrace]
  | cons c cs ih => simp [runTrace, ih]

/-! ### Claims -/

/-- C1: for every username string `u` and password string `p`,
`validateCredentials u p` returns `true` if and only if `u` is
non-empty and the length of `p` is at least 6; no other condition on
the inputs affects the result. -/
theorem validateCredentials_iff (u p : String) :
    validateCredentials u p = true ↔ u ≠ "" ∧ 6 ≤ p.length := by
  simp only [validateCredentials, Bool.and_eq_true, decide_eq_true_eq]
  constructor
  · rintro ⟨h1, h2⟩
    exact ⟨(string_length_pos_iff u).mp h1, h2⟩
  · rintro ⟨h1, h2⟩
    exact ⟨(string_length_pos_iff u).mpr h1, h2⟩

/-- C2: for every input pair, `login` returns exactly the same boolean
value as `validateCredentials`; the returned value depends on nothing
else. -/
theorem login_fst_eq_validate (u p : String) :
    (login u p).1 = validateCredentials u p := by
  unfold login
  by_cases h : validateCredentials u p = true <;> simp [h]

/-- C3 counterexample: the claim says missing input never raises and
collapses to the boolean `false`, but calling the code with a missing
password and the non-empty username `"alice"` raises a `TypeError`
(reading `.length` of `undefined`) in both `validateCredentials` and
`login`. -/
theorem js_raises_on_missing_password :
    validateCredentialsJS (some "alice") none = Except.error "TypeError" ∧
    loginJS (some "alice") none = Except.error "TypeError" := by
  constructor <;> rfl

/-- C3 amended: for every pair of actual string inputs,
`validateCredentials` and `login` never raise: they return the same
boolean as the pure model, so the only failure outcome is `false` and
wrong input is not distinguished from too-short input.  A missing
username always raises a `TypeError`; a missing password raises a
`TypeError` exactly when the username is non-empty (with an empty
username the `&&` short-circuits to `false` without reading the
password). -/
theorem js_total_on_strings :
    (∀ u p : String,
      validateCredentialsJS (some u) (some p) =
        Except.ok (validateCredentials u p) ∧
      loginJS (some u) (some p) = Except.ok (login u p)) ∧
    (∀ p : Option String,
      validateCredentialsJS none p = Except.error "TypeError") ∧
    (∀ u : String, u ≠ "" →
      validateCredentialsJS (some u) none = Except.error "TypeError") ∧
    (∀ p : Option String, validateCredentialsJS (some "") p =
      Except.ok false) := by
  refine ⟨?_, ?_, ?_, ?_⟩
  · intro u p
    constructor
    · simp only [validateCredentialsJS, jsLength, validateCredentials]
      by_cases h : u.length > 0 <;>
        simp [h, bind, Except.bind, pure, Except.pure]
    · simp only [loginJS, validateCredentialsJS, jsLength, login,
        validateCredentials, jsStr]
      by_cases h : u.length > 0 <;>
        by_cases h6 : p.length ≥ 6 <;>
        simp [h, h6, bind, Except.bind, pure, Except.pure]
  · intro p
    rfl
  · intro u hu
    have h : 0 < u.length := (string_length_pos_iff u).mpr hu
    simp [validateCredentialsJS, jsLength, h, bind, Except.bind]
  · intro p
    rfl

/-- C3 witness: the amended theorem applied at `"alice"`, discharging
the non-empty-username hypothesis there. -/
theorem js_total_on_strings_witness :
    validateCredentialsJS (some "alice") none = Except.error "TypeError" ∧
    validateCredentialsJS (some "alice") (some "123456") =
      Except.ok (validateCredentials "alice" "123456") :=
  ⟨js_total_on_strings.2.2.1 "alice" (by decide),
   (js_total_on_strings.1 "alice" "123456").1⟩

/-- C4: for every password string `p`, validation with an empty
username returns `false`, regardless of the password. -/
theorem validate_empty_username (p : String) :
    validateCredentials "" p = false := by
  simp [validateCredentials]

/-- C5: at the length-6 boundary of the password rule, a 5-character
password fails and a password of exactly 6 characters succeeds. -/
theorem validate_boundary :
    validateCredentials "alice" "12345" = false ∧
    validateCredentials "alice" "123456" = true := by
  constructor <;> rfl

/-- C6: `logout` never raises and always terminates, for every possible
prior call history; each call unconditionally appends exactly the one
status message to the output stream and returns no boolean value. -/
theorem logout_after_any_history (history : List Call) :
    runTrace (history ++ [Call.logout]) =
      ((runTrace history).1 ++ [none],
       (runTrace history).2 ++ ["User logged out"]) := by
  rw [runTrace_append]
  rfl

/-- C7: all three operations are stateless and deterministic: in any
call sequence, the result of each call is exactly the result of that
call in isolation, so two calls with equal arguments return equal
results and no call changes the result of any later call. -/
theorem trace_stateless (t : List Call) :
    (runTrace t).1 = t.map callResult ∧
    (runTrace t).2 = (t.map callOutput).flatten := by
  induction t with
  | nil => exact ⟨rfl, rfl⟩
  | cons c cs ih => simp [runTrace, ih.1, ih.2]

/-- C8: for every input pair and every prior history, one `login` call
changes the output stream by exactly one appended message — the status
message when validation succeeds, the failure message when it fails —
and nothing else on the stream changes. -/
theorem login_frame_effect (history : List Call) (u p : String) :
    runTrace (history ++ [Call.login u p]) =
      ((runTrace history).1 ++ [some (validateCredentials u p)],
       (runTrace history).2 ++
         [if validateCredentials u p then
            "User " ++ u ++ " logged in successfully"
          else "Login failed"]) := by
  have h1 : runTrace [Call.login u p] =
      ([some (validateCredentials u p)],
       [if validateCredentials u p then
          "User " ++ u ++ " logged in successfully"
        else "Login failed"]) := by
    by_cases h : validateCredentials u p = true <;>
      simp [runTrace, callResult, callOutput, login, h]
  rw [runTrace_append, h1]

/-- C9: validation is insensitive to password content: for every
username and any two passwords of equal length, the results coincide —
only the length of the password is ever consulted. -/
theorem validate_ignores_password_content (u p₁ p₂ : String)
    (h : p₁.length = p₂.length) :
    validateCredentials u p₁ = validateCredentials u p₂ := by
  simp [validateCredentials, h]

/-- C9 witness: two different 6-character passwords validate
identically. -/
theorem validate_ignores_password_content_witness :
    ("abcdef" : String).length = ("123456" : String).length ∧
    validateCredentials "alice" "abcdef" =
      validateCredentials "alice" "123456" :=
  ⟨by decide, validate_ignores_password_content "alice" "abcdef" "123456"
    (by decide)⟩

/-- C10: on success, `login` prints exactly the message
`"User " ++ username ++ " logged in successfully"`, embedding the
caller-supplied username verbatim; on failure it prints the fixed
message `"Login failed"`, which depends on neither the username nor the
rule that failed. -/
theorem login_message_contents (u p : String) :
    (validateCredentials u p = true →
      (login u p).2 = ["User " ++ u ++ " logged in successfully"]) ∧
    (validateCredentials u p = false →
      (login u p).2 = ["Login failed"]) := by
  constructor <;> intro h <;> simp [login, h]

/-- C10 witness: the message theorem applied at concrete succeeding and
failing inputs, discharging each hypothesis there. -/
theorem login_message_contents_witness :
    (login "alice" "123456").2 =
      ["User " ++ "alice" ++ " logged in successfully"] ∧
    (login "alice" "12345").2 = ["Login failed"] :=
  ⟨(login_message_contents "alice" "123456").1 rfl,
   (login_message_contents "alice" "12345").2 rfl⟩
